import Mathlib

/-!
Verification of the gosolarman frame codec and transport layer.

Bytes are modelled as natural numbers; every place Go's `byte`/`uint16`
arithmetic wraps, the embedding reduces modulo 2^8 / 2^16 explicitly.
Byte buffers are `List Nat`.  Go slice expressions `b[lo:hi]` panic when
`lo ≤ hi ≤ len b` fails; functions that evaluate such an expression
surface that as an explicit `panic` result constructor.
-/

set_option maxRecDepth 100000

namespace Gosolarman

/-- Start byte of a Solarman frame (source constant StartByte = 0xA5). -/
def StartByte : Nat := 0xA5

/-- End byte of a Solarman frame (source constant EndByte = 0x15). -/
def EndByte : Nat := 0x15

/-- Control code for Modbus RTU requests in client mode (0x4510). -/
def ControlCodeRequest : Nat := 0x4510

/-- Frame type for outgoing requests (0x02). -/
def FrameType : Nat := 0x02

/-- Sensor type for outgoing requests (0x0000). -/
def SensorType : Nat := 0x0000

/-- Total working time field for outgoing requests (zero). -/
def TotalWorkingTime : Nat := 0x00000000

/-- Power-on time field for outgoing requests (zero). -/
def PowerOnTime : Nat := 0x00000000

/-- Offset time field for outgoing requests (zero). -/
def OffsetTime : Nat := 0x00000000

/-- Little-endian 16-bit serialization, as uint16ToBytes with
binary.LittleEndian: two bytes, low first. -/
def uint16ToBytesLE (i : Nat) : List Nat :=
  [i % 256, i / 256 % 256]

/-- Little-endian 32-bit serialization, as uint32ToBytes with
binary.LittleEndian: four bytes, low first. -/
def uint32ToBytesLE (i : Nat) : List Nat :=
  [i % 256, i / 256 % 256, i / 65536 % 256, i / 16777216 % 256]

/-- binary.LittleEndian.Uint16 read at offset i of a buffer. -/
def leU16 (b : List Nat) (i : Nat) : Nat :=
  b.getD i 0 + 256 * b.getD (i + 1) 0

/-- binary.LittleEndian.Uint32 read at offset i of a buffer. -/
def leU32 (b : List Nat) (i : Nat) : Nat :=
  b.getD i 0 + 256 * b.getD (i + 1) 0 + 65536 * b.getD (i + 2) 0 +
    16777216 * b.getD (i + 3) 0

/-- CheckSum from solarman_client.go: a byte accumulator summing `v & 0xFF`
for each byte, with byte addition wrapping modulo 256, and a final `& 0xFF`
mask (the identity on a byte). -/
def CheckSum (b : List Nat) : Nat :=
  (b.foldl (fun checksum v => (checksum + v % 256) % 256) 0) % 256

/-- One shift-feedback iteration of the CRC-16 inner loop from crc.go:
if the low bit is clear the register shifts right, otherwise it shifts
right and is xored with 0xA001. -/
def crcIter (crc : Nat) : Nat :=
  if crc % 2 = 0 then crc / 2 else (crc / 2) ^^^ 0xA001

/-- The eight inner-loop iterations crc.go performs per input byte. -/
def crcIters : Nat → Nat → Nat
  | 0, crc => crc
  | k + 1, crc => crcIters k (crcIter crc)

/-- CRCFromBytes from crc.go: register starts at 0xFFFF, each byte is
xored into the register (`crc ^ uint16(v)`) and followed by eight
shift-feedback iterations; the result is emitted low byte first
(`byte(crc)`, `byte(crc >> 8)`). -/
def CRCFromBytes (data : List Nat) : List Nat :=
  let crc := data.foldl (fun crc v => crcIters 8 (crc ^^^ v % 256)) 0xFFFF
  [crc % 256, crc / 256 % 256]

/-- Modbus protocol data unit, as modbus.ProtocolDataUnit: the function
code byte and the data bytes. -/
structure ProtocolDataUnit where
  FunctionCode : Nat
  Data : List Nat
deriving DecidableEq, Repr

/-- CRC from crc.go: the RTU CRC over slave id, function code and data. -/
def CRC (slaveID : Nat) (pdu : ProtocolDataUnit) : List Nat :=
  CRCFromBytes (slaveID :: pdu.FunctionCode :: pdu.Data)

/-- Header of a Solarman frame, as types.go declares it. -/
structure Header where
  Start : Nat
  Length : Nat
  ControlCode : Nat
  SequenceNumber : Nat
  LoggerSerialNumber : Nat
deriving DecidableEq, Repr

/-- Payload of a Solarman response frame, as types.go declares it. -/
structure ResponsePayload where
  FrameType : Nat
  Status : Nat
  TotalWorkingTime : Nat
  PowerOnTime : Nat
  OffsetTime : Nat
  ModbusRTUFrame : ProtocolDataUnit
deriving DecidableEq, Repr

/-- A complete parsed Solarman response, as types.go declares it. -/
structure Response where
  Header : Header
  Payload : ResponsePayload
  Checksum : Nat
deriving DecidableEq, Repr

/-- The distinct error classes the parsing path of types.go reports. -/
inductive ParseErr
  | dataTooShort
  | invalidStart
  | checksumMismatch
  | invalidLength
  | rtuTooShort
  | crcMismatch
deriving DecidableEq, Repr

/-- Outcome of Parse: a parsed response, one of the distinct errors, or a
Go runtime panic from an out-of-range slice expression. -/
inductive ParseResult
  | ok (r : Response)
  | error (e : ParseErr)
  | panic
deriving DecidableEq, Repr

/-- ParseHeader from types.go: rejects buffers shorter than 11 bytes and a
wrong start byte, then reads length, control code, sequence number and
logger serial little-endian.  The binary.Read calls cannot fail on an
11-byte buffer. -/
def ParseHeader (data : List Nat) : Except ParseErr Header :=
  if data.length < 11 then .error .dataTooShort
  else if data.getD 0 0 ≠ StartByte then .error .invalidStart
  else .ok {
    Start := data.getD 0 0
    Length := leU16 data 1
    ControlCode := leU16 data 3
    SequenceNumber := leU16 data 5
    LoggerSerialNumber := leU32 data 7 }

/-- parseRTUFrame from types.go: function code is byte 1 of the RTU
segment, data is bytes 2 up to the trailing 2-byte CRC. -/
def parseRTUFrame (data : List Nat) : ProtocolDataUnit :=
  { FunctionCode := data.getD 1 0
    Data := (data.drop 2).take (data.length - 4) }

/-- Parse from types.go, with Go slice-panic semantics made explicit:
`data[11 : len-2]` is out of range when `len < 13` and `data[25 : len-2]`
when `len < 27`; in Go both abort with a runtime panic rather than an
error. -/
def Parse (data : List Nat) : ParseResult :=
  if data.length < 11 then .error .dataTooShort
  else match ParseHeader (data.take 11) with
  | .error e => .error e
  | .ok header =>
    if CheckSum ((data.drop 1).take (data.length - 3)) ≠
        data.getD (data.length - 2) 0 then .error .checksumMismatch
    else if data.length < 13 then .panic
    else if header.Length ≠ (data.length - 13) % 65536 then .error .invalidLength
    else if data.length < 27 then .panic
    else
      let rtu := (data.drop 25).take (data.length - 27)
      if rtu.length < 5 then .error .rtuTooShort
      else if rtu.drop (rtu.length - 2) ≠ CRCFromBytes (rtu.take (rtu.length - 2)) then
        .error .crcMismatch
      else .ok {
        Header := header
        Payload := {
          FrameType := data.getD 11 0
          Status := data.getD 12 0
          TotalWorkingTime := leU32 data 13
          PowerOnTime := leU32 data 17
          OffsetTime := leU32 data 21
          ModbusRTUFrame := parseRTUFrame rtu }
        Checksum := data.getD (data.length - 1) 0 }

/-- The codec state of solarmanPackager: slave id, logger serial and the
one-byte outbound sequence counter. -/
structure Packager where
  SlaveID : Nat
  LoggerSerial : Nat
  serial : Nat
deriving DecidableEq, Repr

/-- The payload Encode assembles: frame type, sensor type, the three
zeroed timing fields, then slave id, function code, data and the RTU
CRC. -/
def encodePayload (slaveID : Nat) (pdu : ProtocolDataUnit) : List Nat :=
  [FrameType] ++ uint16ToBytesLE SensorType ++ uint32ToBytesLE TotalWorkingTime ++
    uint32ToBytesLE PowerOnTime ++ uint32ToBytesLE OffsetTime ++
    [slaveID, pdu.FunctionCode] ++ pdu.Data ++ CRC slaveID pdu

/-- Encode from solarman_client.go: builds the payload, advances the
sequence counter (getNextSerial increments the byte, wrapping mod 256),
assembles start byte, little-endian payload length (`uint16(len)`),
control code, sequence byte, reserved zero, little-endian logger serial
and payload, then appends the additive checksum over everything after the
start byte and the end byte.  Returns the frame and the updated packager
state. -/
def Encode (mb : Packager) (pdu : ProtocolDataUnit) : List Nat × Packager :=
  let payloadBytes := encodePayload mb.SlaveID pdu
  let serial2 := (mb.serial + 1) % 256
  let body := [StartByte] ++ uint16ToBytesLE (payloadBytes.length % 65536) ++
    uint16ToBytesLE ControlCodeRequest ++ [serial2, 0x00] ++
    uint32ToBytesLE (mb.LoggerSerial % 4294967296) ++ payloadBytes
  (body ++ [CheckSum (body.drop 1), EndByte], { mb with serial := serial2 })

/-- The distinct error classes Verify reports. -/
inductive VerifyErr
  | tooShort
  | invalidStart
  | checksumMismatch
  | controlCodeMismatch
  | serialMismatch
deriving DecidableEq, Repr

/-- Outcome of Verify: success, a distinct error, or a Go runtime panic
from an out-of-range request slice expression. -/
inductive VerifyResult
  | ok
  | error (e : VerifyErr)
  | panic
deriving DecidableEq, Repr

/-- Verify from solarman_client.go, with Go slice-panic semantics made
explicit: only the response buffer is length-checked; the request slices
`aduRequest[5:6]`, `aduRequest[3:5]` and `aduRequest[7:11]` are out of
range (a runtime panic) when the request is shorter than 6, 5 and 11
bytes respectively.  When the sequence bytes mismatch, the taken branch
builds its message with binary.BigEndian.Uint16(aduRequest[5:6]):
Uint16 indexes b[1] of that length-1 slice, out of range, so the branch
panics instead of ever returning a sequence-mismatch error.  The
expected response control code is the request control code minus 0x3000
in wrapping uint16 arithmetic (its mismatch message formats plain uint16
values and the serial mismatch message formats the 4-byte slices, so
those two branches return their distinct errors).  Verify is a pure
function: it reads both buffers and touches no packager state. -/
def Verify (aduRequest aduResponse : List Nat) : VerifyResult :=
  if aduResponse.length < 11 then .error .tooShort
  else if aduResponse.getD 0 0 ≠ StartByte then .error .invalidStart
  else if CheckSum ((aduResponse.drop 1).take (aduResponse.length - 3)) ≠
      aduResponse.getD (aduResponse.length - 2) 0 then .error .checksumMismatch
  else if aduRequest.length < 6 then .panic
  else if aduRequest.getD 5 0 ≠ aduResponse.getD 5 0 then .panic
  else if leU16 aduResponse 3 ≠ (leU16 aduRequest 3 + 65536 - 0x3000) % 65536 then
    .error .controlCodeMismatch
  else if aduRequest.length < 11 then .panic
  else if (aduRequest.drop 7).take 4 ≠ (aduResponse.drop 7).take 4 then
    .error .serialMismatch
  else .ok

/-- One CRC shift-feedback iteration, written the way the specification
describes it: LSB-first feedback with polynomial 0xA001. -/
def crcIterSpec (r : Nat) : Nat :=
  if r.testBit 0 then (r >>> 1) ^^^ 0xA001 else r >>> 1

/-- Eight specification iterations per message byte, the byte xored into
the register first. -/
def crcByteSpec (r v : Nat) : Nat :=
  (List.range 8).foldl (fun s _ => crcIterSpec s) (r ^^^ v)

/-- The reference reflected CRC-16 as the specification states it:
initial register 0xFFFF, eight LSB-first 0xA001-feedback iterations per
byte, output as low byte then high byte. -/
def crc16Spec (msg : List Nat) : List Nat :=
  let r := msg.foldl crcByteSpec 0xFFFF
  [r % 256, (r >>> 8) % 256]

/-- A run of consecutive Encode calls threading the packager state, the
way the Modbus engine drives the codec: returns the produced frames and
the final packager state. -/
def encodeSeq (mb : Packager) : List ProtocolDataUnit → List (List Nat) × Packager
  | [] => ([], mb)
  | pdu :: rest =>
    let step := Encode mb pdu
    let tail := encodeSeq step.2 rest
    (step.1 :: tail.1, tail.2)

/-- The sequence-number correlation Verify tests: byte 5 of request and
response are equal. -/
def seqMatches (req resp : List Nat) : Prop :=
  req.getD 5 0 = resp.getD 5 0

/-- The control-code correlation Verify tests: the response control code
(little-endian at offset 3) equals the request control code minus 0x3000
in wrapping uint16 arithmetic. -/
def controlCodeMatches (req resp : List Nat) : Prop :=
  leU16 resp 3 = (leU16 req 3 + 65536 - 0x3000) % 65536

/-- The serial correlation Verify tests: bytes 7..11 of request and
response are equal. -/
def serialMatches (req resp : List Nat) : Prop :=
  (req.drop 7).take 4 = (resp.drop 7).take 4

/-- Outcome of Decode: the embedded PDU, a parse error, or a panic. -/
inductive DecodeResult
  | ok (pdu : ProtocolDataUnit)
  | error (e : ParseErr)
  | panic
deriving DecidableEq, Repr

/-- Decode from solarman_client.go: Parse the ADU and project out the
embedded Modbus RTU frame of the payload. -/
def Decode (adu : List Nat) : DecodeResult :=
  match Parse adu with
  | .ok r => .ok r.Payload.ModbusRTUFrame
  | .error e => .error e
  | .panic => .panic

/-- The two failure classes Send distinguishes on a socket operation: a
broken pipe (errors.Is(err, syscall.EPIPE) holds) and every other
failure. -/
inductive ErrClass
  | epipe
  | other
deriving DecidableEq, Repr

/-- The socket oracle: the outcome of the i-th dial, the i-th conn.Write
and the i-th conn.Read of an execution.  A read also delivers the bytes
read so far, as Go's read returns the partial buffer alongside the
error. -/
structure Env where
  dial : Nat → Option ErrClass
  writeRes : Nat → Option ErrClass
  readRes : Nat → List Nat × Option ErrClass

/-- Observable socket events of a Send execution. -/
inductive Event
  | dial
  | closeConn
  | write
  | read
deriving DecidableEq, Repr

/-- The transporter state: whether a socket handle exists, how many
dials/writes/reads have been consumed, and the event trace. -/
structure LinkState where
  connOpen : Bool
  dials : Nat
  writes : Nat
  reads : Nat
  trace : List Event
deriving DecidableEq, Repr

/-- A transporter that already holds a live socket and has consumed no
oracle outcomes. -/
def initConnected : LinkState :=
  { connOpen := true, dials := 0, writes := 0, reads := 0, trace := [] }

/-- connect from solarman_client.go: a no-op when a socket handle exists,
otherwise one dial attempt. -/
def connect (env : Env) (s : LinkState) : Option ErrClass × LinkState :=
  if s.connOpen then (none, s)
  else
    match env.dial s.dials with
    | none =>
      (none,
        { s with
          connOpen := true
          dials := s.dials + 1
          trace := s.trace ++ [.dial] })
    | some e =>
      (some e,
        { s with
          dials := s.dials + 1
          trace := s.trace ++ [.dial] })

/-- reconnect from solarman_client.go: when a socket handle exists it is
closed and discarded before connect dials anew; without one it is just
connect. -/
def reconnect (env : Env) (s : LinkState) : Option ErrClass × LinkState :=
  if s.connOpen then
    connect env { s with connOpen := false, trace := s.trace ++ [.closeConn] }
  else connect env s

/-- One mb.write call: consumes the next write outcome.  Go always writes
the same aduRequest buffer, so only the outcome is modelled. -/
def writeStep (env : Env) (s : LinkState) : Option ErrClass × LinkState :=
  (env.writeRes s.writes,
    { s with writes := s.writes + 1, trace := s.trace ++ [.write] })

/-- One mb.read call: consumes the next read outcome (bytes and error). -/
def readStep (env : Env) (s : LinkState) : (List Nat × Option ErrClass) × LinkState :=
  (env.readRes s.reads,
    { s with reads := s.reads + 1, trace := s.trace ++ [.read] })

/-- The wrapped errors Send can return: connect/reconnect/write/read
failures carry their fmt.Errorf context; `plain` is the unwrapped error
of the final named return (a non-EPIPE read error falls through to it). -/
inductive SendErr
  | connectFailed (e : ErrClass)
  | reconnectFailed (e : ErrClass)
  | writeFailed (e : ErrClass)
  | readFailed (e : ErrClass)
  | plain (e : ErrClass)
deriving DecidableEq, Repr

/-- The read half of Send (from `aduResponse, err = mb.read()` on): an
EPIPE read failure triggers one reconnect, one rewrite of the request and
one re-read, each failure terminal; a non-EPIPE read failure reaches the
final `return` and is surfaced unwrapped together with the partial
bytes. -/
def sendReadPhase (env : Env) (s : LinkState) : (List Nat × Option SendErr) × LinkState :=
  let r1 := readStep env s
  match r1.1.2 with
  | some .epipe =>
    let rc := reconnect env r1.2
    match rc.1 with
    | some e => (([], some (.reconnectFailed e)), rc.2)
    | none =>
      let w := writeStep env rc.2
      match w.1 with
      | some e => (([], some (.writeFailed e)), w.2)
      | none =>
        let r2 := readStep env w.2
        match r2.1.2 with
        | some e => (([], some (.readFailed e)), r2.2)
        | none => ((r2.1.1, none), r2.2)
  | some e => ((r1.1.1, some (.plain e)), r1.2)
  | none => ((r1.1.1, none), r1.2)

/-- Send from solarman_client.go, transcribed over the socket oracle.
The first write's EPIPE failure triggers one reconnect and one retried
write, whose failure of any class is terminal; then control reaches the
read phase.  Faithfully to the source, a non-EPIPE first-write error does
NOT return: control falls through to the read and the error variable is
overwritten by the read's result. -/
def Send (env : Env) (s0 : LinkState) : (List Nat × Option SendErr) × LinkState :=
  let c := connect env s0
  match c.1 with
  | some e => (([], some (.connectFailed e)), c.2)
  | none =>
    let w1 := writeStep env c.2
    match w1.1 with
    | some .epipe =>
      let rc := reconnect env w1.2
      match rc.1 with
      | some e => (([], some (.reconnectFailed e)), rc.2)
      | none =>
        let w2 := writeStep env rc.2
        match w2.1 with
        | some e => (([], some (.writeFailed e)), w2.2)
        | none => sendReadPhase env w2.2
    | _ => sendReadPhase env w1.2

/-- The socket oracle exhibiting the write-error fallthrough of Send: the
one write fails with a non-EPIPE error and the subsequent read
succeeds. -/
def envWriteFailsReadOk : Env :=
  { dial := fun _ => none
    writeRes := fun _ => some .other
    readRes := fun _ => ([0xA5, 7], none) }

/-- The embedding matches TestParseHeader of the Go test-suite: the
11-byte reference header parses to length 14, control code 0x4510,
sequence field 0x0201 and serial 0x78563412. -/
theorem parseHeader_go_test_vector :
    ParseHeader [0xA5, 0x0E, 0x00, 0x10, 0x45, 0x01, 0x02, 0x12, 0x34, 0x56, 0x78] =
    .ok { Start := 0xA5, Length := 14, ControlCode := 0x4510,
          SequenceNumber := 0x0201, LoggerSerialNumber := 0x78563412 } := by rfl

/-- The embedding matches TestParse of the Go test-suite: the reference
response frame parses fully.  (Faithfully to the source, Go stores the
END byte in the Checksum field: Response.Checksum is data[len-1].) -/
theorem parse_go_test_frame :
    (let body : List Nat := [0xA5, 0x16, 0x00, 0x10, 0x45, 0x01, 0x02, 0x12, 0x34, 0x56, 0x78,
      0x02, 0x01, 0x10, 0, 0, 0, 0x20, 0, 0, 0, 0x30, 0, 0, 0,
      0x01, 0x03, 0x02, 0x71, 0x00, 0x01, 0xD5, 0xA9]
    Parse (body ++ [CheckSum (body.drop 1), 0x15])) =
    .ok { Header := { Start := 0xA5, Length := 22, ControlCode := 0x4510,
                      SequenceNumber := 0x0201, LoggerSerialNumber := 0x78563412 }
          Payload := { FrameType := 2, Status := 1, TotalWorkingTime := 0x10,
                       PowerOnTime := 0x20, OffsetTime := 0x30,
                       ModbusRTUFrame := { FunctionCode := 3, Data := [0x02, 0x71, 0x00, 0x01] } }
          Checksum := 0x15 } := by decide

/-- The additive checksum fold, started from any accumulator already
reduced mod 256, computes the accumulator plus the byte sum, mod 256. -/
theorem checkSum_foldl (b : List Nat) : ∀ acc : Nat,
    b.foldl (fun checksum v => (checksum + v % 256) % 256) (acc % 256) =
      (acc + b.sum) % 256 := by
  induction b with
  | nil => intro acc; simp
  | cons v t ih =>
    intro acc
    have h1 : (acc % 256 + v % 256) % 256 = (acc + v) % 256 := by omega
    calc (v :: t).foldl (fun checksum w => (checksum + w % 256) % 256) (acc % 256)
        = t.foldl (fun checksum w => (checksum + w % 256) % 256) ((acc + v) % 256) := by
          simp [List.foldl, h1]
      _ = (acc + v + t.sum) % 256 := ih (acc + v)
      _ = (acc + (v :: t).sum) % 256 := by simp [List.sum_cons]; ring_nf

/-- C8: CheckSum of [0x01,0x02,0x03,0x04] is 0x0A, CheckSum of the empty
sequence is 0x00, and CheckSum of any byte sequence is the sum of its
bytes reduced modulo 256 (so inputs summing above 255 wrap). -/
theorem checkSum_is_sum_mod_256 :
    CheckSum [0x01, 0x02, 0x03, 0x04] = 0x0A ∧ CheckSum [] = 0x00 ∧
    ∀ b : List Nat, CheckSum b = b.sum % 256 := by
  refine ⟨by decide, by decide, fun b => ?_⟩
  have h0 : (0 : Nat) = 0 % 256 := by norm_num
  calc CheckSum b
      = (b.foldl (fun checksum v => (checksum + v % 256) % 256) (0 % 256)) % 256 := by
        rw [CheckSum, h0]
    _ = ((0 + b.sum) % 256) % 256 := by rw [checkSum_foldl]
    _ = b.sum % 256 := by omega

theorem crcIterSpec_eq (r : Nat) : crcIterSpec r = crcIter r := by
  rw [crcIterSpec, crcIter, Nat.testBit_zero, Nat.shiftRight_one]
  rcases Nat.mod_two_eq_zero_or_one r with h | h <;> simp [h]

theorem crcIters_succ (n : Nat) : ∀ x : Nat, crcIters (n + 1) x = crcIter (crcIters n x) := by
  induction n with
  | zero => intro x; rfl
  | succ m ih => intro x; rw [crcIters, ih (crcIter x), crcIters]

theorem crcByteSpec_eq (r v : Nat) : crcByteSpec r v = crcIters 8 (r ^^^ v) := by
  have key : ∀ n x, (List.range n).foldl (fun s _ => crcIterSpec s) x = crcIters n x := by
    intro n
    induction n with
    | zero => intro x; rfl
    | succ m ih =>
      intro x
      rw [List.range_succ, List.foldl_append, ih x, List.foldl, List.foldl,
        crcIterSpec_eq, ← crcIters_succ]
  exact key 8 (r ^^^ v)

/-- C9: CRCFromBytes on the reference vector [0x01,0x03,0x02,0x71,0x00,0x01]
is [0xD5, 0xA9], and on every byte sequence CRCFromBytes computes exactly
the specification CRC-16 (0xA001 LSB-first feedback, initial 0xFFFF, 8
iterations per byte, output low byte then high byte); determinism is
immediate since both are functions of the input. -/
theorem crcFromBytes_is_crc16 :
    CRCFromBytes [0x01, 0x03, 0x02, 0x71, 0x00, 0x01] = [0xD5, 0xA9] ∧
    ∀ data : List Nat, (∀ v ∈ data, v < 256) → CRCFromBytes data = crc16Spec data := by
  refine ⟨by decide, fun data h => ?_⟩
  rw [CRCFromBytes, crc16Spec]
  have hfold : ∀ (l : List Nat), (∀ v ∈ l, v < 256) → ∀ r : Nat,
      l.foldl (fun crc v => crcIters 8 (crc ^^^ v % 256)) r = l.foldl crcByteSpec r := by
    intro l
    induction l with
    | nil => intro _ r; rfl
    | cons v t ih =>
      intro hl r
      have hv : v % 256 = v := Nat.mod_eq_of_lt (hl v (by simp))
      have ht : ∀ w ∈ t, w < 256 := fun w hw => hl w (by simp [hw])
      rw [List.foldl, List.foldl, hv, crcByteSpec_eq]
      exact ih ht (crcIters 8 (r ^^^ v))
  rw [hfold data h 0xFFFF, Nat.shiftRight_eq_div_pow]

/-- C4: Parse is not total.  Two concrete inputs that pass the start-byte
and checksum checks yet make a Go slice expression out of range: an
11-byte frame (data[11:9] in `data[11:len-2]` aborts) and a 26-byte frame
whose declared payload length 13 matches the measured span
(data[25:24] in `data[25:len-2]` aborts).  In both cases Parse panics
instead of returning an error. -/
theorem parse_panics_on_short_frames :
    Parse [0xA5, 0, 0, 0, 0, 0, 0, 0, 0, 0, 0x15] = .panic ∧
    Parse [0xA5, 13, 0, 0, 0, 0, 0, 0, 0, 0, 0, 0, 0, 0, 0, 0, 0, 0, 0, 0,
      0, 0, 0, 0, 13, 0x15] = .panic := by
  constructor <;> decide

/-- C10: Verify length-checks only the response.  With a response that
passes the length, start-byte and checksum checks, an empty request makes
`aduRequest[5:6]` out of range, and a 7-byte request whose sequence byte
and control code match makes `aduRequest[7:11]` out of range; in both
cases Verify panics instead of returning an error. -/
theorem verify_panics_on_short_request :
    Verify [] [0xA5, 0, 0, 0, 0, 0, 0, 0, 0, 0, 0x15] = .panic ∧
    Verify [0, 0, 0, 0, 0x30, 0, 0] [0xA5, 0, 0, 0, 0, 0, 0, 0, 0, 0, 0x15] = .panic := by
  constructor <;> decide

/-- Byte 5 of an encoded frame is the advanced sequence counter. -/
theorem encode_frame_getD5 (mb : Packager) (pdu : ProtocolDataUnit) :
    ((Encode mb pdu).1).getD 5 0 = (mb.serial + 1) % 256 := by
  simp [Encode, uint16ToBytesLE, uint32ToBytesLE, StartByte, ControlCodeRequest,
    List.getD_cons_zero, List.getD_cons_succ]

/-- Encode only advances the serial; a run of Encode calls leaves slave id
and logger serial untouched and, starting from a byte-valued counter,
advances it by the number of frames modulo 256. -/
theorem encodeSeq_state (pdus : List ProtocolDataUnit) : ∀ mb : Packager, mb.serial < 256 →
    (encodeSeq mb pdus).2.serial = (mb.serial + pdus.length) % 256 ∧
    (encodeSeq mb pdus).2.SlaveID = mb.SlaveID ∧
    (encodeSeq mb pdus).2.LoggerSerial = mb.LoggerSerial := by
  induction pdus with
  | nil => intro mb h; simp [encodeSeq, Nat.mod_eq_of_lt h]
  | cons p rest ih =>
    intro mb h
    have hstep : (Encode mb p).2 = { mb with serial := (mb.serial + 1) % 256 } := rfl
    have h2 : ((mb.serial + 1) % 256) < 256 := Nat.mod_lt _ (by norm_num)
    obtain ⟨hs, ha, hl⟩ := ih { mb with serial := (mb.serial + 1) % 256 } h2
    refine ⟨?_, ?_, ?_⟩ <;> simp only [encodeSeq, hstep, hs, ha, hl, List.length_cons]
    omega

/-- Frame k (0-based) of a run of Encode calls carries sequence byte
(initial counter + k + 1) mod 256. -/
theorem encodeSeq_getD5 (pdus : List ProtocolDataUnit) : ∀ (mb : Packager) (k : Nat),
    k < pdus.length →
    (((encodeSeq mb pdus).1.getD k []).getD 5 0) = (mb.serial + (k + 1)) % 256 := by
  induction pdus with
  | nil => intro mb k hk; simp at hk
  | cons p rest ih =>
    intro mb k hk
    have hstep : (Encode mb p).2 = { mb with serial := (mb.serial + 1) % 256 } := rfl
    match k with
    | 0 =>
      simpa [encodeSeq] using encode_frame_getD5 mb p
    | Nat.succ j =>
      have hj : j < rest.length := by simpa using Nat.lt_of_succ_lt_succ hk
      have := ih { mb with serial := (mb.serial + 1) % 256 } j hj
      simp only [encodeSeq, hstep, List.getD_cons_succ] at this ⊢
      rw [this]
      omega

/-- C7: the sequence counter is a single byte incremented before each
outbound frame and wrapping mod 256.  Over any run of consecutive Encode
calls from a byte counter value c, the frame produced by the k-th call
(1-based; index k-1 here, 0-based) carries (c + k) mod 256 at offset 5,
the final counter is (c + n) mod 256, and no other packager state
changes. -/
theorem encode_advances_sequence_counter (mb : Packager) (pdus : List ProtocolDataUnit)
    (k : Nat) (hserial : mb.serial < 256) (hk : k < pdus.length) :
    (((encodeSeq mb pdus).1.getD k []).getD 5 0) = (mb.serial + (k + 1)) % 256 ∧
    (encodeSeq mb pdus).2.serial = (mb.serial + pdus.length) % 256 ∧
    (encodeSeq mb pdus).2.SlaveID = mb.SlaveID ∧
    (encodeSeq mb pdus).2.LoggerSerial = mb.LoggerSerial :=
  ⟨encodeSeq_getD5 pdus mb k hk, encodeSeq_state pdus mb hserial⟩

/-- Witness for C7 at a concrete packager (counter 0xFE, wrapping) and a
run of three encodes, observed at the third frame. -/
theorem encode_advances_sequence_counter_witness :
    (((encodeSeq { SlaveID := 1, LoggerSerial := 7, serial := 0xFE }
        [{ FunctionCode := 3, Data := [] }, { FunctionCode := 3, Data := [] },
         { FunctionCode := 3, Data := [] }]).1.getD 2 []).getD 5 0) =
      (0xFE + (2 + 1)) % 256 ∧
    (encodeSeq { SlaveID := 1, LoggerSerial := 7, serial := 0xFE }
        [{ FunctionCode := 3, Data := [] }, { FunctionCode := 3, Data := [] },
         { FunctionCode := 3, Data := [] }]).2.serial = (0xFE + 3) % 256 ∧
    (encodeSeq { SlaveID := 1, LoggerSerial := 7, serial := 0xFE }
        [{ FunctionCode := 3, Data := [] }, { FunctionCode := 3, Data := [] },
         { FunctionCode := 3, Data := [] }]).2.SlaveID = 1 ∧
    (encodeSeq { SlaveID := 1, LoggerSerial := 7, serial := 0xFE }
        [{ FunctionCode := 3, Data := [] }, { FunctionCode := 3, Data := [] },
         { FunctionCode := 3, Data := [] }]).2.LoggerSerial = 7 :=
  encode_advances_sequence_counter
    { SlaveID := 1, LoggerSerial := 7, serial := 0xFE }
    [{ FunctionCode := 3, Data := [] }, { FunctionCode := 3, Data := [] },
     { FunctionCode := 3, Data := [] }] 2 (by norm_num) (by norm_num)

/-- Counterexample for C6 as stated, twice over.  First, a response that
passes the length, start-byte and checksum checks, paired with an empty
request: Verify neither succeeds nor returns one of the three correlation
errors — it panics on the unchecked request slice aduRequest[5:6].
Second, an 11-byte request whose sequence byte 9 mismatches the
response's 0: Verify panics instead of returning the distinct
sequence-mismatch error, because the taken branch formats its message
with binary.BigEndian.Uint16 on the length-1 slice aduRequest[5:6],
indexing b[1] out of range. -/
theorem verify_counterexample_short_request :
    (11 ≤ ([0xA5, 1, 0, 0, 0, 0, 0, 0, 0, 1, 0x15] : List Nat).length ∧
     ([0xA5, 1, 0, 0, 0, 0, 0, 0, 0, 1, 0x15] : List Nat).getD 0 0 = StartByte ∧
     CheckSum ((([0xA5, 1, 0, 0, 0, 0, 0, 0, 0, 1, 0x15] : List Nat).drop 1).take 8) =
       ([0xA5, 1, 0, 0, 0, 0, 0, 0, 0, 1, 0x15] : List Nat).getD 9 0) ∧
    Verify [] [0xA5, 1, 0, 0, 0, 0, 0, 0, 0, 1, 0x15] = .panic ∧
    Verify [0xA5, 0, 0, 0, 0, 9, 0, 0, 0, 0, 0] [0xA5, 1, 0, 0, 0, 0, 0, 0, 0, 1, 0x15] =
      .panic := by
  refine ⟨by decide, by decide, by decide⟩

/-- C6 (amended): with the request also at least 11 bytes (shorter
requests make Verify panic on its unchecked request slices), for every
pair whose response passes the length, start-byte and outer-checksum
checks, Verify succeeds exactly when sequence byte, control code minus
0x3000 and serial bytes all match; a control-code mismatch and a serial
mismatch each yield their own distinct error, in that order — but a
sequence mismatch panics instead of returning a distinct error, because
the mismatch branch formats binary.BigEndian.Uint16 over the length-1
slice aduRequest[5:6].  Verify is embedded as a pure function of the two
buffers: it mutates no state. -/
theorem verify_correlation (req resp : List Nat)
    (hreq : 11 ≤ req.length) (hresp : 11 ≤ resp.length)
    (hstart : resp.getD 0 0 = StartByte)
    (hck : CheckSum ((resp.drop 1).take (resp.length - 3)) = resp.getD (resp.length - 2) 0) :
    (Verify req resp = .ok ↔
      seqMatches req resp ∧ controlCodeMatches req resp ∧ serialMatches req resp) ∧
    (Verify req resp = .panic ↔ ¬ seqMatches req resp) ∧
    (Verify req resp = .error .controlCodeMismatch ↔
      seqMatches req resp ∧ ¬ controlCodeMatches req resp) ∧
    (Verify req resp = .error .serialMismatch ↔
      seqMatches req resp ∧ controlCodeMatches req resp ∧ ¬ serialMatches req resp) := by
  have h1 : ¬ (resp.length < 11) := by omega
  have h4 : ¬ (req.length < 6) := by omega
  have h5 : ¬ (req.length < 11) := by omega
  simp only [Verify, seqMatches, controlCodeMatches, serialMatches]
  split_ifs <;> simp_all

/-- Witness for C6 at a concrete matching pair: request control code
0x4510, response control code 0x1510, equal sequence byte 5 and serial
bytes [1,2,3,4], response checksum 52. -/
theorem verify_correlation_witness :
    Verify [0xA5, 0, 0, 0x10, 0x45, 5, 0, 1, 2, 3, 4]
      [0xA5, 0, 0, 0x10, 0x15, 5, 0, 1, 2, 3, 4, 52, 0x15] = .ok :=
  (verify_correlation [0xA5, 0, 0, 0x10, 0x45, 5, 0, 1, 2, 3, 4]
    [0xA5, 0, 0, 0x10, 0x15, 5, 0, 1, 2, 3, 4, 52, 0x15]
    (by norm_num) (by norm_num) (by decide) (by decide)).1.mpr
    (by simp only [seqMatches, controlCodeMatches, serialMatches]; decide)

theorem getD_take_of_lt (l : List Nat) {i n : Nat} (h : i < n) :
    (l.take n).getD i 0 = l.getD i 0 := by
  simp [List.getD, List.getElem?_take_of_lt h]

/-- On a buffer of at least 11 bytes, ParseHeader of the first 11 bytes
either rejects the start byte or reads the header fields straight from
the buffer. -/
theorem parseHeader_take (data : List Nat) (h11 : 11 ≤ data.length) :
    ParseHeader (data.take 11) =
      if data.getD 0 0 ≠ StartByte then .error .invalidStart
      else .ok { Start := data.getD 0 0, Length := leU16 data 1,
                 ControlCode := leU16 data 3, SequenceNumber := leU16 data 5,
                 LoggerSerialNumber := leU32 data 7 } := by
  have hlen : (data.take 11).length = 11 := by
    simp [List.length_take]; omega
  have g : ∀ i : Nat, i < 11 → (data.take 11).getD i 0 = data.getD i 0 :=
    fun i hi => getD_take_of_lt data hi
  rw [ParseHeader, hlen]
  simp only [leU16, leU32, g 0 (by norm_num), g 1 (by norm_num), g 2 (by norm_num),
    g 3 (by norm_num), g 4 (by norm_num), g 5 (by norm_num), g 6 (by norm_num),
    g 7 (by norm_num), g 8 (by norm_num), g 9 (by norm_num), g 10 (by norm_num)]
  norm_num

/-- C5: Parse validates in strict order with a distinct terminal error at
each step — short data, bad start byte, outer checksum mismatch, declared
vs. measured length mismatch, short RTU segment, inner CRC mismatch — and
when every check passes it returns the fully populated response and no
partial result otherwise.  (The guards 13 ≤ len and 27 ≤ len bound the
regions where Parse instead panics on an out-of-range slice; that gap is
claim C4's subject.) -/
theorem parse_strict_validation_order (data : List Nat) :
    (data.length < 11 → Parse data = .error .dataTooShort) ∧
    (11 ≤ data.length → data.getD 0 0 ≠ StartByte → Parse data = .error .invalidStart) ∧
    (11 ≤ data.length → data.getD 0 0 = StartByte →
      CheckSum ((data.drop 1).take (data.length - 3)) ≠ data.getD (data.length - 2) 0 →
      Parse data = .error .checksumMismatch) ∧
    (13 ≤ data.length → data.getD 0 0 = StartByte →
      CheckSum ((data.drop 1).take (data.length - 3)) = data.getD (data.length - 2) 0 →
      leU16 data 1 ≠ (data.length - 13) % 65536 → Parse data = .error .invalidLength) ∧
    (27 ≤ data.length → data.length < 32 → data.getD 0 0 = StartByte →
      CheckSum ((data.drop 1).take (data.length - 3)) = data.getD (data.length - 2) 0 →
      leU16 data 1 = (data.length - 13) % 65536 → Parse data = .error .rtuTooShort) ∧
    (32 ≤ data.length → data.getD 0 0 = StartByte →
      CheckSum ((data.drop 1).take (data.length - 3)) = data.getD (data.length - 2) 0 →
      leU16 data 1 = (data.length - 13) % 65536 →
      ((data.drop 25).take (data.length - 27)).drop (data.length - 29) ≠
        CRCFromBytes (((data.drop 25).take (data.length - 27)).take (data.length - 29)) →
      Parse data = .error .crcMismatch) ∧
    (32 ≤ data.length → data.getD 0 0 = StartByte →
      CheckSum ((data.drop 1).take (data.length - 3)) = data.getD (data.length - 2) 0 →
      leU16 data 1 = (data.length - 13) % 65536 →
      ((data.drop 25).take (data.length - 27)).drop (data.length - 29) =
        CRCFromBytes (((data.drop 25).take (data.length - 27)).take (data.length - 29)) →
      Parse data = .ok {
        Header := { Start := data.getD 0 0, Length := leU16 data 1,
                    ControlCode := leU16 data 3, SequenceNumber := leU16 data 5,
                    LoggerSerialNumber := leU32 data 7 }
        Payload := { FrameType := data.getD 11 0, Status := data.getD 12 0,
                     TotalWorkingTime := leU32 data 13, PowerOnTime := leU32 data 17,
                     OffsetTime := leU32 data 21,
                     ModbusRTUFrame := parseRTUFrame ((data.drop 25).take (data.length - 27)) }
        Checksum := data.getD (data.length - 1) 0 }) := by
  have hrtu : 27 ≤ data.length →
      ((data.drop 25).take (data.length - 27)).length = data.length - 27 := by
    intro h; simp [List.length_take, List.length_drop]; omega
  refine ⟨fun h => by rw [Parse, if_pos h], ?_, ?_, ?_, ?_, ?_, ?_⟩
  · intro h11 hbad
    rw [Parse, if_neg (by omega), parseHeader_take data h11, if_pos hbad]
  · intro h11 hstart hck
    rw [Parse, if_neg (by omega), parseHeader_take data h11,
      if_neg (not_not_intro hstart)]
    simp only [if_pos hck]
  · intro h13 hstart hck hlen
    rw [Parse, if_neg (by omega), parseHeader_take data (by omega),
      if_neg (not_not_intro hstart)]
    simp only [if_neg (not_not_intro hck), if_neg (show ¬ data.length < 13 by omega),
      if_pos hlen]
  · intro h27 h32 hstart hck hlen
    rw [Parse, if_neg (by omega), parseHeader_take data (by omega),
      if_neg (not_not_intro hstart)]
    simp only [if_neg (not_not_intro hck), if_neg (show ¬ data.length < 13 by omega),
      if_neg (not_not_intro hlen), if_neg (show ¬ data.length < 27 by omega),
      if_pos (show ((data.drop 25).take (data.length - 27)).length < 5 by
        rw [hrtu h27]; omega)]
  · intro h32 hstart hck hlen hcrc
    rw [Parse, if_neg (by omega), parseHeader_take data (by omega),
      if_neg (not_not_intro hstart)]
    simp only [if_neg (not_not_intro hck), if_neg (show ¬ data.length < 13 by omega),
      if_neg (not_not_intro hlen), if_neg (show ¬ data.length < 27 by omega),
      if_neg (show ¬ ((data.drop 25).take (data.length - 27)).length < 5 by
        rw [hrtu (by omega)]; omega), hrtu (show 27 ≤ data.length by omega)]
    rw [if_neg (show ¬ data.length - 27 < 5 by omega),
      show data.length - 27 - 2 = data.length - 29 from by omega, if_pos hcrc]
  · intro h32 hstart hck hlen hcrc
    rw [Parse, if_neg (by omega), parseHeader_take data (by omega),
      if_neg (not_not_intro hstart)]
    simp only [if_neg (not_not_intro hck), if_neg (show ¬ data.length < 13 by omega),
      if_neg (not_not_intro hlen), if_neg (show ¬ data.length < 27 by omega),
      if_neg (show ¬ ((data.drop 25).take (data.length - 27)).length < 5 by
        rw [hrtu (by omega)]; omega), hrtu (show 27 ≤ data.length by omega)]
    rw [if_neg (show ¬ data.length - 27 < 5 by omega),
      show data.length - 27 - 2 = data.length - 29 from by omega,
      if_neg (not_not_intro hcrc)]

theorem crc_length (s : Nat) (p : ProtocolDataUnit) : (CRC s p).length = 2 := rfl

/-- The payload Encode builds, flattened: fifteen fixed bytes (frame type
2, sensor type and the three zeroed timing fields), then slave id,
function code, data and the 2-byte RTU CRC. -/
theorem encodePayload_eq (s : Nat) (p : ProtocolDataUnit) :
    encodePayload s p =
      [2, 0, 0, 0, 0, 0, 0, 0, 0, 0, 0, 0, 0, 0, 0] ++
        s :: p.FunctionCode :: (p.Data ++ CRC s p) := by
  simp [encodePayload, uint16ToBytesLE, uint32ToBytesLE, FrameType, SensorType,
    TotalWorkingTime, PowerOnTime, OffsetTime]

theorem encodePayload_length (s : Nat) (p : ProtocolDataUnit) :
    (encodePayload s p).length = 19 + p.Data.length := by
  rw [encodePayload_eq]
  simp [crc_length]
  omega

section FrameFacts

variable (pre P : List Nat) (c e : Nat)

theorem frame_length (h : pre.length = 11) :
    (pre ++ (P ++ [c, e])).length = 13 + P.length := by
  simp [h]; omega

theorem frame_getD_lt (h : pre.length = 11) {i : Nat} (hi : i < 11) :
    (pre ++ (P ++ [c, e])).getD i 0 = pre.getD i 0 := by
  rw [List.getD_eq_getElem?_getD, List.getD_eq_getElem?_getD,
    List.getElem?_append_left (by omega)]

theorem frame_checksum_span (h : pre.length = 11) :
    ((pre ++ (P ++ [c, e])).drop 1).take ((pre ++ (P ++ [c, e])).length - 3) =
      pre.drop 1 ++ P := by
  rw [frame_length pre P c e h]
  rw [List.drop_append_eq_append_drop, List.take_append_eq_append_take]
  have h1 : pre.drop 1 = pre.tail := by simp [List.drop_one]
  have h2 : (pre.drop 1).length = 10 := by simp [h]
  have h3 : (1 - pre.length) = 0 := by omega
  rw [h3, List.drop_zero, List.take_of_length_le (by omega), h2]
  have h4 : 13 + P.length - 3 - 10 = P.length := by omega
  rw [h4, List.take_append_eq_append_take, List.take_length,
    Nat.sub_self, List.take_zero, List.append_nil]

theorem frame_getD_checksum (h : pre.length = 11) :
    (pre ++ (P ++ [c, e])).getD ((pre ++ (P ++ [c, e])).length - 2) 0 = c := by
  rw [frame_length pre P c e h]
  have h1 : 13 + P.length - 2 = 11 + P.length := by omega
  rw [h1, List.getD_eq_getElem?_getD, List.getElem?_append_right (by omega), h]
  have h2 : 11 + P.length - 11 = P.length := by omega
  rw [h2, List.getElem?_append_right (le_refl _), Nat.sub_self]
  rfl

theorem frame_rtu_span (h : pre.length = 11) (hP : 14 ≤ P.length) :
    ((pre ++ (P ++ [c, e])).drop 25).take ((pre ++ (P ++ [c, e])).length - 27) =
      P.drop 14 := by
  rw [frame_length pre P c e h]
  rw [List.drop_append_eq_append_drop, h]
  have h1 : pre.drop 25 = [] := List.drop_eq_nil_of_le (by omega)
  rw [h1, List.nil_append]
  have h2 : (25 : Nat) - 11 = 14 := by norm_num
  rw [h2, List.drop_append_eq_append_drop]
  have h3 : 14 - P.length = 0 := by omega
  rw [h3, List.drop_zero]
  have h4 : 13 + P.length - 27 = P.length - 14 := by omega
  rw [h4, List.take_append_eq_append_take, List.take_of_length_le (by simp)]
  have h5 : P.length - 14 - (P.drop 14).length = 0 := by simp
  rw [h5, List.take_zero, List.append_nil]

end FrameFacts

/-- On a frame of the request shape — an 11-byte header whose start byte
is the marker and whose declared length matches the payload, a payload of
at least 19 bytes, the correct additive checksum and the end byte — Parse
either fails the inner CRC check or succeeds with the RTU frame extracted
from payload offset 14. -/
theorem parse_of_request_shape (pre P : List Nat) (c : Nat)
    (hpre : pre.length = 11)
    (hstart : pre.getD 0 0 = StartByte)
    (hlen16 : leU16 pre 1 = P.length % 65536)
    (hc : CheckSum (pre.drop 1 ++ P) = c)
    (hP19 : 19 ≤ P.length) :
    Parse (pre ++ (P ++ [c, EndByte])) = .error .crcMismatch ∨
    ∃ r : Response, Parse (pre ++ (P ++ [c, EndByte])) = .ok r ∧
      r.Payload.ModbusRTUFrame = parseRTUFrame (P.drop 14) := by
  have hFlen := frame_length pre P c EndByte hpre
  have hstart2 : (pre ++ (P ++ [c, EndByte])).getD 0 0 = StartByte := by
    rw [frame_getD_lt pre P c EndByte hpre (by norm_num), hstart]
  have hck : CheckSum (((pre ++ (P ++ [c, EndByte])).drop 1).take
      ((pre ++ (P ++ [c, EndByte])).length - 3)) =
      (pre ++ (P ++ [c, EndByte])).getD ((pre ++ (P ++ [c, EndByte])).length - 2) 0 := by
    rw [frame_checksum_span pre P c EndByte hpre, frame_getD_checksum pre P c EndByte hpre, hc]
  have hlen : leU16 (pre ++ (P ++ [c, EndByte])) 1 =
      ((pre ++ (P ++ [c, EndByte])).length - 13) % 65536 := by
    rw [leU16] at hlen16 ⊢
    rw [frame_getD_lt pre P c EndByte hpre (by norm_num : (1 : Nat) < 11),
      frame_getD_lt pre P c EndByte hpre (by norm_num : (2 : Nat) < 11), hFlen]
    rw [show 13 + P.length - 13 = P.length from by omega]
    exact hlen16
  rw [Parse, if_neg (by omega), parseHeader_take _ (by omega), if_neg (not_not_intro hstart2)]
  simp only [if_neg (not_not_intro hck),
    if_neg (show ¬ (pre ++ (P ++ [c, EndByte])).length < 13 by omega),
    if_neg (not_not_intro hlen),
    if_neg (show ¬ (pre ++ (P ++ [c, EndByte])).length < 27 by omega),
    frame_rtu_span pre P c EndByte hpre (by omega), List.length_drop]
  rw [if_neg (show ¬ P.length - 14 < 5 by omega)]
  split
  · exact Or.inl rfl
  · exact Or.inr ⟨_, rfl, rfl⟩

/-- The last byte of the zeroed timing fields plus the RTU tail: dropping
14 bytes of the request payload keeps the final zero of the offset-time
field, then slave id, function code, data and CRC. -/
theorem encodePayload_drop_14 (s : Nat) (p : ProtocolDataUnit) :
    (encodePayload s p).drop 14 = 0 :: s :: p.FunctionCode :: (p.Data ++ CRC s p) := by
  rw [encodePayload_eq]
  rfl

/-- parseRTUFrame on the shifted segment Parse extracts from an encoded
request yields the slave id as function code and the function code
prepended to the data. -/
theorem parseRTUFrame_of_encode_drop (s : Nat) (p : ProtocolDataUnit) :
    parseRTUFrame ((encodePayload s p).drop 14) =
      { FunctionCode := s, Data := p.FunctionCode :: p.Data } := by
  rw [encodePayload_drop_14, parseRTUFrame]
  have hlen : (0 :: s :: p.FunctionCode :: (p.Data ++ CRC s p)).length - 4 =
      p.Data.length + 1 := by
    simp [crc_length]
  rw [hlen]
  have hdrop : (0 :: s :: p.FunctionCode :: (p.Data ++ CRC s p)).drop 2 =
      p.FunctionCode :: (p.Data ++ CRC s p) := rfl
  rw [hdrop]
  have htake : (p.FunctionCode :: (p.Data ++ CRC s p)).take (p.Data.length + 1) =
      p.FunctionCode :: p.Data := by
    rw [List.take_succ_cons]
    congr 1
    exact List.take_left p.Data (CRC s p)
  rw [htake]
  rfl

/-- Parsing a frame built by Encode either fails the inner CRC check or
succeeds with a shifted RTU frame: Parse extracts the RTU segment at
offset 25 (the response layout, with a 1-byte status field), while Encode
lays the request payload out with a 2-byte sensor-type field, so the
extracted segment starts one byte early — its byte 1 is the slave id and
its data span is the function code followed by the data. -/
theorem parse_encode_cases (mb : Packager) (pdu : ProtocolDataUnit) :
    Parse (Encode mb pdu).1 = .error .crcMismatch ∨
    ∃ r : Response, Parse (Encode mb pdu).1 = .ok r ∧
      r.Payload.ModbusRTUFrame =
        { FunctionCode := mb.SlaveID, Data := pdu.FunctionCode :: pdu.Data } := by
  have hPlen : (encodePayload mb.SlaveID pdu).length = 19 + pdu.Data.length :=
    encodePayload_length mb.SlaveID pdu
  have hF : (Encode mb pdu).1 =
      ([StartByte] ++ uint16ToBytesLE ((encodePayload mb.SlaveID pdu).length % 65536) ++
        uint16ToBytesLE ControlCodeRequest ++ [(mb.serial + 1) % 256, 0x00] ++
        uint32ToBytesLE (mb.LoggerSerial % 4294967296)) ++
      (encodePayload mb.SlaveID pdu ++
        [CheckSum (([StartByte] ++ uint16ToBytesLE ((encodePayload mb.SlaveID pdu).length % 65536) ++
          uint16ToBytesLE ControlCodeRequest ++ [(mb.serial + 1) % 256, 0x00] ++
          uint32ToBytesLE (mb.LoggerSerial % 4294967296)).drop 1 ++
          encodePayload mb.SlaveID pdu), EndByte]) := by
    rw [Encode]
    simp only [uint16ToBytesLE, uint32ToBytesLE, List.append_assoc, List.singleton_append,
      List.cons_append, List.nil_append, List.drop_succ_cons, List.drop_zero]
  have hcases := parse_of_request_shape
    ([StartByte] ++ uint16ToBytesLE ((encodePayload mb.SlaveID pdu).length % 65536) ++
      uint16ToBytesLE ControlCodeRequest ++ [(mb.serial + 1) % 256, 0x00] ++
      uint32ToBytesLE (mb.LoggerSerial % 4294967296))
    (encodePayload mb.SlaveID pdu)
    (CheckSum (([StartByte] ++ uint16ToBytesLE ((encodePayload mb.SlaveID pdu).length % 65536) ++
      uint16ToBytesLE ControlCodeRequest ++ [(mb.serial + 1) % 256, 0x00] ++
      uint32ToBytesLE (mb.LoggerSerial % 4294967296)).drop 1 ++
      encodePayload mb.SlaveID pdu))
    (by simp [uint16ToBytesLE, uint32ToBytesLE])
    (by simp [uint16ToBytesLE, uint32ToBytesLE, StartByte])
    (by
      simp [leU16, uint16ToBytesLE, uint32ToBytesLE, List.getD_cons_zero, List.getD_cons_succ]
      omega)
    rfl
    (by omega)
  rw [← hF] at hcases
  rw [parseRTUFrame_of_encode_drop mb.SlaveID pdu] at hcases
  exact hcases

/-- Counterexample for C1 as stated: at the reference request (slave id
1, function code 3, data [0x02,0x71,0x00,0x01]) parsing the encoded frame
does not succeed — it fails the inner CRC check. -/
theorem decode_encode_counterexample :
    Decode (Encode { SlaveID := 1, LoggerSerial := 2899336898, serial := 0 }
      { FunctionCode := 3, Data := [0x02, 0x71, 0x00, 0x01] }).1 =
      .error .crcMismatch := by decide

/-- C1 (amended): Decode ∘ Encode never round-trips.  For every packager
state and every PDU, parsing the frame Encode produced either fails (the
RTU segment is extracted one byte early, so its CRC check reads shifted
bytes) or, would the shifted CRC comparison ever pass, yields the slave
id as function code and a data field one byte longer than the input —
never the encoded function code and data. -/
theorem decode_encode_never_roundtrips (mb : Packager) (pdu : ProtocolDataUnit) :
    Decode (Encode mb pdu).1 ≠ DecodeResult.ok pdu := by
  rcases parse_encode_cases mb pdu with h | ⟨r, hok, hmrf⟩
  · rw [Decode, h]
    simp
  · rw [Decode, hok]
    simp only []
    intro hcontra
    have h1 : r.Payload.ModbusRTUFrame = pdu := by
      injection hcontra
    rw [hmrf] at h1
    have h2 := congrArg ProtocolDataUnit.Data h1
    have h3 := congrArg List.length h2
    simp at h3

/-- C2 evaluated at its failing input: on a connected transporter whose
write fails with a non-EPIPE error and whose read then succeeds, Send
returns the read bytes with NO error — the write failure was silently
overwritten by the read, contradicting both the claim and Send's own
error-reporting intent.  The trace confirms the failed write happened and
no recovery was attempted. -/
theorem send_swallows_non_epipe_write_error :
    (Send envWriteFailsReadOk initConnected).1 = ([0xA5, 7], none) ∧
    (Send envWriteFailsReadOk initConnected).2.trace = [.write, .read] ∧
    envWriteFailsReadOk.writeRes 0 = some .other := by
  refine ⟨rfl, rfl, rfl⟩

/-- C3: the one-shot broken-pipe recovery policy of Send, from a
connected transporter.  (A) a write EPIPE followed by a failing reconnect
surfaces the reconnect error after exactly one close+dial; (B) a write
EPIPE with successful reconnect retries the write exactly once and any
failure of the retry — broken pipe included — is surfaced with no second
recovery; (C) the recovered write then proceeds to a normal read;
(D)-(G) the same policy for a read EPIPE: one close+dial, one rewrite of
the request, one re-read, every failure terminal — a second broken pipe
is never recovered; (H) without a broken pipe no recovery happens at
all.  Each conjunct states the full event trace, so the number of
recovery cycles is exact. -/
theorem send_single_broken_pipe_recovery (env : Env) (e : ErrClass) (bs bs2 : List Nat) :
    (env.writeRes 0 = some .epipe → env.dial 0 = some e →
      (Send env initConnected).1 = ([], some (.reconnectFailed e)) ∧
      (Send env initConnected).2.trace = [.write, .closeConn, .dial]) ∧
    (env.writeRes 0 = some .epipe → env.dial 0 = none → env.writeRes 1 = some e →
      (Send env initConnected).1 = ([], some (.writeFailed e)) ∧
      (Send env initConnected).2.trace = [.write, .closeConn, .dial, .write]) ∧
    (env.writeRes 0 = some .epipe → env.dial 0 = none → env.writeRes 1 = none →
      env.readRes 0 = (bs, none) →
      (Send env initConnected).1 = (bs, none) ∧
      (Send env initConnected).2.trace = [.write, .closeConn, .dial, .write, .read]) ∧
    (env.writeRes 0 = none → env.readRes 0 = (bs, some .epipe) → env.dial 0 = some e →
      (Send env initConnected).1 = ([], some (.reconnectFailed e)) ∧
      (Send env initConnected).2.trace = [.write, .read, .closeConn, .dial]) ∧
    (env.writeRes 0 = none → env.readRes 0 = (bs, some .epipe) → env.dial 0 = none →
      env.writeRes 1 = some e →
      (Send env initConnected).1 = ([], some (.writeFailed e)) ∧
      (Send env initConnected).2.trace = [.write, .read, .closeConn, .dial, .write]) ∧
    (env.writeRes 0 = none → env.readRes 0 = (bs, some .epipe) → env.dial 0 = none →
      env.writeRes 1 = none → env.readRes 1 = (bs2, some e) →
      (Send env initConnected).1 = ([], some (.readFailed e)) ∧
      (Send env initConnected).2.trace = [.write, .read, .closeConn, .dial, .write, .read]) ∧
    (env.writeRes 0 = none → env.readRes 0 = (bs, some .epipe) → env.dial 0 = none →
      env.writeRes 1 = none → env.readRes 1 = (bs2, none) →
      (Send env initConnected).1 = (bs2, none) ∧
      (Send env initConnected).2.trace = [.write, .read, .closeConn, .dial, .write, .read]) ∧
    (env.writeRes 0 = none → env.readRes 0 = (bs, none) →
      (Send env initConnected).1 = (bs, none) ∧
      (Send env initConnected).2.trace = [.write, .read]) := by
  refine ⟨?_, ?_, ?_, ?_, ?_, ?_, ?_, ?_⟩ <;>
    intro h1 h2 <;>
    first
      | (intro h3 h4 h5
         exact ⟨by simp [Send, sendReadPhase, connect, reconnect, writeStep, readStep,
                  initConnected, h1, h2, h3, h4, h5],
                by simp [Send, sendReadPhase, connect, reconnect, writeStep, readStep,
                  initConnected, h1, h2, h3, h4, h5]⟩)
      | (intro h3 h4
         exact ⟨by simp [Send, sendReadPhase, connect, reconnect, writeStep, readStep,
                  initConnected, h1, h2, h3, h4],
                by simp [Send, sendReadPhase, connect, reconnect, writeStep, readStep,
                  initConnected, h1, h2, h3, h4]⟩)
      | (intro h3
         exact ⟨by simp [Send, sendReadPhase, connect, reconnect, writeStep, readStep,
                  initConnected, h1, h2, h3],
                by simp [Send, sendReadPhase, connect, reconnect, writeStep, readStep,
                  initConnected, h1, h2, h3]⟩)
      | exact ⟨by simp [Send, sendReadPhase, connect, reconnect, writeStep, readStep,
                  initConnected, h1, h2],
               by simp [Send, sendReadPhase, connect, reconnect, writeStep, readStep,
                  initConnected, h1, h2]⟩

end Gosolarman
